import Mathlib

/-!
Verification of the Tradernet MCP server (`src/index.ts`) against its
natural-language specification.

The source is a single TypeScript file: a signing/HTTP-call helper
(`generateSignature`, `callApi`), a result formatter (`formatResult`), and
twelve tool handlers registered on an MCP server.  The embedding below is a
shallow one:

* JSON values are the inductive `JsonValue`; JavaScript object literals
  become `JsonValue.jobj` with fields in insertion order (the order
  `JSON.stringify` serializes string-keyed properties in).  Numeric
  parameters are modelled as `Int`: every concrete number appearing in the
  spec's claims is an integer, and `JSON.stringify` prints integral numbers
  without a decimal point exactly as `Int.repr` does.
* `JSON.stringify(v)` is `serialize`, and `JSON.stringify(v, null, 2)` is
  `formatResult` — both translated from the ECMAScript serialization
  algorithm restricted to `JsonValue`.
* Effects are made explicit: `callApi` takes the process configuration, the
  current time in milliseconds, an abstract HMAC-SHA256-hex primitive
  (`crypto.createHmac("sha256", key).update(data).digest("hex")` is a Node
  builtin, not repository code, so it enters as a function parameter
  `hmac : key → data → hex`), and an abstract network
  `net : HttpRequest → Except String JsonValue` standing for `axios.post`
  (ok = decoded response body, error = the thrown failure's message).  The
  returned trace component lists the outbound requests actually issued, so
  "no network request" is `[]` and "exactly one POST" is a singleton.
* Tool handlers are total Lean functions returning the response
  `Envelope` together with the request trace.  `try`/`catch` around
  `await callApi(...)` becomes a `match` on the `Except` result.
* `JSON.parse` (again a runtime builtin, not repository code) enters
  `raw_api_call` as a function parameter
  `parse : String → Except String JsonValue` whose error carries the thrown
  `SyntaxError`'s message.
-/

/-- JSON values, as produced by parsing and consumed by `JSON.stringify`.
Object fields are kept in insertion order. -/
inductive JsonValue where
  | jnull : JsonValue
  | jbool (b : Bool) : JsonValue
  | jnum (n : Int) : JsonValue
  | jstr (s : String) : JsonValue
  | jobj (fields : List (String × JsonValue)) : JsonValue
  | jarr (elems : List JsonValue) : JsonValue

/-- One character of the ECMAScript `QuoteJSONString` algorithm: `"` and
`\` are backslash-escaped, the named control characters get their two-char
escapes, other control characters get `\u00XX`. -/
def escapeChar (c : Char) : String :=
  if c = '"' then "\\\""
  else if c = '\\' then "\\\\"
  else if c = '\x08' then "\\b"
  else if c = '\x09' then "\\t"
  else if c = '\x0a' then "\\n"
  else if c = '\x0c' then "\\f"
  else if c = '\x0d' then "\\r"
  else if c.toNat < 0x20 then
    "\\u00" ++ String.singleton (Nat.digitChar (c.toNat / 16))
            ++ String.singleton (Nat.digitChar (c.toNat % 16))
  else String.singleton c

/-- ECMAScript `QuoteJSONString`: the string wrapped in double quotes with
characters escaped. -/
def quoteStr (s : String) : String :=
  "\"" ++ String.join (s.toList.map escapeChar) ++ "\""

mutual

/-- Model of `JSON.stringify(v)`: compact serialization, no whitespace, object
fields in insertion order. -/
def serialize : JsonValue → String
  | .jnull => "null"
  | .jbool true => "true"
  | .jbool false => "false"
  | .jnum n => toString n
  | .jstr s => quoteStr s
  | .jobj fields => "\x7b" ++ serializeFields fields ++ "\x7d"
  | .jarr elems => "[" ++ serializeElems elems ++ "]"

/-- Comma-separated `"key":value` members of an object. -/
def serializeFields : List (String × JsonValue) → String
  | [] => ""
  | [(k, v)] => quoteStr k ++ ":" ++ serialize v
  | (k, v) :: rest => quoteStr k ++ ":" ++ serialize v ++ "," ++ serializeFields rest

/-- Comma-separated elements of an array. -/
def serializeElems : List JsonValue → String
  | [] => ""
  | [v] => serialize v
  | v :: rest => serialize v ++ "," ++ serializeElems rest

end

mutual

/-- Model of `JSON.stringify(v, null, 2)` at nesting level `indent`: the ECMAScript
algorithm with `gap = "  "`.  Non-empty objects and arrays break onto new
lines, each member indented two spaces deeper, and the closing bracket is
indented at `indent`. -/
def prettyVal (indent : String) : JsonValue → String
  | .jnull => "null"
  | .jbool true => "true"
  | .jbool false => "false"
  | .jnum n => toString n
  | .jstr s => quoteStr s
  | .jobj [] => "\x7b\x7d"
  | .jobj (f :: rest) =>
      "\x7b\n" ++ (indent ++ "  ") ++ prettyFields (indent ++ "  ") (f :: rest)
        ++ "\n" ++ indent ++ "\x7d"
  | .jarr [] => "[]"
  | .jarr (v :: rest) =>
      "[\n" ++ (indent ++ "  ") ++ prettyElems (indent ++ "  ") (v :: rest)
        ++ "\n" ++ indent ++ "]"

/-- Object members at indentation `indent`, joined by `",\n" ++ indent`;
with a gap the key-value separator is `": "`. -/
def prettyFields (indent : String) : List (String × JsonValue) → String
  | [] => ""
  | [(k, v)] => quoteStr k ++ ": " ++ prettyVal indent v
  | (k, v) :: rest =>
      quoteStr k ++ ": " ++ prettyVal indent v ++ ",\n" ++ indent
        ++ prettyFields indent rest

/-- Array elements at indentation `indent`, joined by `",\n" ++ indent`. -/
def prettyElems (indent : String) : List JsonValue → String
  | [] => ""
  | [v] => prettyVal indent v
  | v :: rest => prettyVal indent v ++ ",\n" ++ indent ++ prettyElems indent rest

end

/-- Source `formatResult` (src/index.ts:45-47): `JSON.stringify(data, null, 2)`. -/
def formatResult (data : JsonValue) : String :=
  prettyVal "" data

/-- Field lookup in a JSON object (first match, like property access on the
built object literal); `none` on non-objects. -/
def JsonValue.lookup : JsonValue → String → Option JsonValue
  | .jobj fields, k => List.lookup k fields
  | _, _ => none

/-- The process-wide configuration read from the environment at startup
(src/index.ts:11-13).  Each field already has the `?? <default>` fallback
applied. -/
structure Config where
  publicKey : String
  privateKey : String
  apiBase : String

/-- src/index.ts:11-13: `process.env.X ?? <default>` — an absent
environment variable (here `none`) falls back to `""` for the two keys and
to the production URL for the base. -/
def mkConfig (pub priv url : Option String) : Config :=
  { publicKey := pub.getD ""
    privateKey := priv.getD ""
    apiBase := url.getD "https://tradernet.com/api" }

/-- One outbound HTTP POST as `axios.post(url, body, { headers })` issues
it (src/index.ts:38-40). -/
structure HttpRequest where
  url : String
  body : String
  headers : List (String × String)
deriving DecidableEq

/-- Source `generateSignature` (src/index.ts:17-19):
`crypto.createHmac("sha256", PRIVATE_KEY).update(data).digest("hex")`.
The HMAC-SHA256-hex primitive itself is a Node builtin, so it is the
abstract parameter `hmac : key → data → hex digest`; this function fixes
the key to the private credential. -/
def generateSignature (cfg : Config) (hmac : String → String → String)
    (data : String) : String :=
  hmac cfg.privateKey data

/-- Source `callApi` (src/index.ts:21-42).  `nowMs` is `Date.now()` (milliseconds);
`net` is the transport (`axios.post`), mapping the request either to the
decoded response body or to a thrown failure's message.  The first
component is the value of the `await` (ok) or the caught exception's
message (error); the second lists the outbound requests issued during the
call, so the credential check rejecting falsy (empty) credentials yields
`[]` before any network access. -/
def callApi (cfg : Config) (hmac : String → String → String) (nowMs : Nat)
    (net : HttpRequest → Except String JsonValue)
    (command : String) (params : JsonValue) :
    Except String JsonValue × List HttpRequest :=
  if cfg.publicKey = "" ∨ cfg.privateKey = "" then
    (.error "TRADERNET_PUBLIC_KEY and TRADERNET_PRIVATE_KEY environment variables are required", [])
  else
    let timeStamp := toString (nowMs / 1000)
    let payload := serialize params
    let headers := [("Content-Type", "application/json"),
                    ("X-NtApi-PublicKey", cfg.publicKey),
                    ("X-NtApi-Timestamp", timeStamp),
                    ("X-NtApi-Sig", generateSignature cfg hmac (payload ++ timeStamp))]
    let req : HttpRequest :=
      { url := cfg.apiBase ++ "/" ++ command, body := payload, headers := headers }
    (net req, [req])

/-- One item of an envelope's `content` array; every handler produces
`{ type: "text", text: ... }` items only. -/
structure ContentItem where
  type : String
  text : String
deriving DecidableEq

/-- The uniform tool response envelope: `{ content: [...] }`, with
`isError: true` on the failure path (`isError := false` models the field's
absence on success). -/
structure Envelope where
  content : List ContentItem
  isError : Bool
deriving DecidableEq

/-- The `try`/`catch` pattern shared verbatim by every handler: on a
successful `callApi` result wrap `formatResult(data)` in a success
envelope, on a caught failure wrap `` `Error: ${e.message}` `` with
`isError: true`; the request trace passes through either way. -/
def wrapResult (r : Except String JsonValue × List HttpRequest) :
    Envelope × List HttpRequest :=
  match r with
  | (.ok data, reqs) =>
      ({ content := [{ type := "text", text := formatResult data }], isError := false }, reqs)
  | (.error e, reqs) =>
      ({ content := [{ type := "text", text := "Error: " ++ e }], isError := true }, reqs)

/-- The `place_order` tool's `action` enum (src/index.ts:122-124). -/
inductive OrderAction where
  | buy | buy_margin | sell | sell_short

/-- The `place_order` tool's `order_type` enum (src/index.ts:125-127). -/
inductive OrderType where
  | market | limit | stop | stop_limit

/-- The `place_order` tool's `expiration` enum (src/index.ts:131-134); zod applies
the default `day` before the handler runs, so the handler always receives
a value. -/
inductive Expiration where
  | day | day_ext | gtc

/-- Source `actionMap` (src/index.ts:137): `{ buy: 1, buy_margin: 2, sell: 3, sell_short: 4 }`. -/
def actionMap : OrderAction → Int
  | .buy => 1
  | .buy_margin => 2
  | .sell => 3
  | .sell_short => 4

/-- Source `typeMap` (src/index.ts:138): `{ market: 1, limit: 2, stop: 3, stop_limit: 4 }`. -/
def typeMap : OrderType → Int
  | .market => 1
  | .limit => 2
  | .stop => 3
  | .stop_limit => 4

/-- Source `expMap` (src/index.ts:139): `{ day: 1, day_ext: 2, gtc: 3 }`. -/
def expMap : Expiration → Int
  | .day => 1
  | .day_ext => 2
  | .gtc => 3

/-- The object literal `place_order` passes to
`callApi("putTradeOrder", ...)` (src/index.ts:142-150); optional prices
absent (`none`) fall back to 0 via `?? 0`. -/
def placeOrderParams (instrument : String) (action : OrderAction)
    (order_type : OrderType) (quantity : Int)
    (limit_price stop_price : Option Int) (expiration : Expiration) : JsonValue :=
  .jobj [("instr_name", .jstr instrument),
         ("action_id", .jnum (actionMap action)),
         ("order_type_id", .jnum (typeMap order_type)),
         ("qty", .jnum quantity),
         ("limit_price", .jnum (limit_price.getD 0)),
         ("stop_price", .jnum (stop_price.getD 0)),
         ("expiration_id", .jnum (expMap expiration))]

/-- Model of `parseInt` on the digit-only strings admitted by the `timeframe` enum:
a decimal digit fold (the builtin's general behavior on arbitrary strings
is irrelevant here: zod has already restricted the input to
`"1" | "5" | "15" | "60" | "1440"`). -/
def jsParseInt (s : String) : Int :=
  Int.ofNat (s.toList.foldl (fun acc c => acc * 10 + (c.toNat - 48)) 0)

/-- The object literal `get_quotes_history` passes to
`callApi("getHloc", ...)` (src/index.ts:256-263). -/
def quotesHistoryParams (ticker timeframe date_from date_to : String)
    (count : Int) : JsonValue :=
  .jobj [("id", .jstr ticker),
         ("timeframe", .jnum (jsParseInt timeframe)),
         ("date_from", .jstr date_from),
         ("date_to", .jstr date_to),
         ("count", .jnum count),
         ("intervalMode", .jstr "ClosedRay")]

/-- The object literal `delete_price_alert` passes to
`callApi("togglePriceAlert", ...)` (src/index.ts:366-371). -/
def deletePriceAlertParams (alert_id : Int) : JsonValue :=
  .jobj [("id", .jnum alert_id),
         ("del", .jbool true),
         ("quote_type", .jstr "ltp"),
         ("notification_type", .jstr "email")]

/-- The `get_user_data` handler (src/index.ts:73-88): `callApi("getOPQ", {})`
wrapped in the uniform try/catch envelope. -/
def get_user_data_handler (cfg : Config) (hmac : String → String → String)
    (nowMs : Nat) (net : HttpRequest → Except String JsonValue) :
    Envelope × List HttpRequest :=
  wrapResult (callApi cfg hmac nowMs net "getOPQ" (.jobj []))

/-- The `get_portfolio` handler (src/index.ts:94-109): `callApi("getPositionJson", {})`. -/
def get_portfolio_handler (cfg : Config) (hmac : String → String → String)
    (nowMs : Nat) (net : HttpRequest → Except String JsonValue) :
    Envelope × List HttpRequest :=
  wrapResult (callApi cfg hmac nowMs net "getPositionJson" (.jobj []))

/-- The `place_order` handler (src/index.ts:115-159). -/
def place_order_handler (cfg : Config) (hmac : String → String → String)
    (nowMs : Nat) (net : HttpRequest → Except String JsonValue)
    (instrument : String) (action : OrderAction) (order_type : OrderType)
    (quantity : Int) (limit_price stop_price : Option Int)
    (expiration : Expiration) : Envelope × List HttpRequest :=
  wrapResult (callApi cfg hmac nowMs net "putTradeOrder"
    (placeOrderParams instrument action order_type quantity limit_price stop_price expiration))

/-- The `cancel_order` handler (src/index.ts:161-178): `callApi("delTradeOrder", { order_id })`. -/
def cancel_order_handler (cfg : Config) (hmac : String → String → String)
    (nowMs : Nat) (net : HttpRequest → Except String JsonValue)
    (order_id : Int) : Envelope × List HttpRequest :=
  wrapResult (callApi cfg hmac nowMs net "delTradeOrder"
    (.jobj [("order_id", .jnum order_id)]))

/-- The `set_stop_loss_take_profit` handler (src/index.ts:180-209); nullable
prices pass through as JSON `null`, and the optional trailing percent maps
to `null` via `?? null`. -/
def set_stop_loss_take_profit_handler (cfg : Config)
    (hmac : String → String → String) (nowMs : Nat)
    (net : HttpRequest → Except String JsonValue) (instrument : String)
    (stop_loss take_profit trailing_stop_percent : Option Int) :
    Envelope × List HttpRequest :=
  wrapResult (callApi cfg hmac nowMs net "putStopLoss"
    (.jobj [("instr_name", .jstr instrument),
            ("stop_loss", (stop_loss.map JsonValue.jnum).getD .jnull),
            ("take_profit", (take_profit.map JsonValue.jnum).getD .jnull),
            ("stoploss_trailing_percent", (trailing_stop_percent.map JsonValue.jnum).getD .jnull)]))

/-- The `get_security_info` handler (src/index.ts:215-232): adds the fixed
flag `sup: true`. -/
def get_security_info_handler (cfg : Config) (hmac : String → String → String)
    (nowMs : Nat) (net : HttpRequest → Except String JsonValue)
    (ticker : String) : Envelope × List HttpRequest :=
  wrapResult (callApi cfg hmac nowMs net "getSecurityInfo"
    (.jobj [("ticker", .jstr ticker), ("sup", .jbool true)]))

/-- The `get_quotes_history` handler (src/index.ts:234-272). -/
def get_quotes_history_handler (cfg : Config) (hmac : String → String → String)
    (nowMs : Nat) (net : HttpRequest → Except String JsonValue)
    (ticker timeframe date_from date_to : String) (count : Int) :
    Envelope × List HttpRequest :=
  wrapResult (callApi cfg hmac nowMs net "getHloc"
    (quotesHistoryParams ticker timeframe date_from date_to count))

/-- The `search_tickers` handler (src/index.ts:274-295): query passed as `text`. -/
def search_tickers_handler (cfg : Config) (hmac : String → String → String)
    (nowMs : Nat) (net : HttpRequest → Except String JsonValue)
    (query : String) : Envelope × List HttpRequest :=
  wrapResult (callApi cfg hmac nowMs net "tickerFinder"
    (.jobj [("text", .jstr query)]))

/-- The `add_price_alert` handler (src/index.ts:301-356): the price string is
wrapped as `{ price }`, and `expire: 0` is fixed; the remaining enum
parameters are string-valued and pass through verbatim. -/
def add_price_alert_handler (cfg : Config) (hmac : String → String → String)
    (nowMs : Nat) (net : HttpRequest → Except String JsonValue)
    (ticker price trigger_type quote_type notification_type alert_period : String) :
    Envelope × List HttpRequest :=
  wrapResult (callApi cfg hmac nowMs net "togglePriceAlert"
    (.jobj [("ticker", .jstr ticker),
            ("price", .jobj [("price", .jstr price)]),
            ("trigger_type", .jstr trigger_type),
            ("quote_type", .jstr quote_type),
            ("notification_type", .jstr notification_type),
            ("alert_period", .jstr alert_period),
            ("expire", .jnum 0)]))

/-- The `delete_price_alert` handler (src/index.ts:358-380). -/
def delete_price_alert_handler (cfg : Config) (hmac : String → String → String)
    (nowMs : Nat) (net : HttpRequest → Except String JsonValue)
    (alert_id : Int) : Envelope × List HttpRequest :=
  wrapResult (callApi cfg hmac nowMs net "togglePriceAlert"
    (deletePriceAlertParams alert_id))

/-- The `get_security_sessions` handler (src/index.ts:386-401). -/
def get_security_sessions_handler (cfg : Config) (hmac : String → String → String)
    (nowMs : Nat) (net : HttpRequest → Except String JsonValue) :
    Envelope × List HttpRequest :=
  wrapResult (callApi cfg hmac nowMs net "getSecuritySessions" (.jobj []))

/-- The `raw_api_call` handler (src/index.ts:407-435).  `JSON.parse` is the
abstract `parse` parameter (a runtime builtin): its error carries the
thrown `SyntaxError`'s message, caught by the same `catch` as API
failures.  Both arms of the `use_v2` conditional are the verbatim
`callApi(command, parsed)` of the source. -/
def raw_api_call_handler (cfg : Config) (hmac : String → String → String)
    (nowMs : Nat) (net : HttpRequest → Except String JsonValue)
    (parse : String → Except String JsonValue)
    (command params : String) (use_v2 : Bool) : Envelope × List HttpRequest :=
  match parse params with
  | .error e =>
      ({ content := [{ type := "text", text := "Error: " ++ e }], isError := true }, [])
  | .ok parsed =>
      wrapResult (if use_v2 then callApi cfg hmac nowMs net command parsed
                  else callApi cfg hmac nowMs net command parsed)

/-- Whether `needle` occurs contiguously inside `hay` (character lists). -/
def listInfixOf (needle hay : List Char) : Bool :=
  match hay with
  | [] => needle.isEmpty
  | c :: rest => needle.isPrefixOf (c :: rest) || listInfixOf needle rest

/-- Whether `needle` is a substring of `hay`. -/
def strContainsSub (hay needle : String) : Bool :=
  listInfixOf needle.toList hay.toList

/-- The message of the error thrown by `callApi` when a credential is
missing (src/index.ts:23-25). -/
def credsRequiredMsg : String :=
  "TRADERNET_PUBLIC_KEY and TRADERNET_PRIVATE_KEY environment variables are required"

/-- Concrete HMAC fixture for witnesses: tags key and data so the
signature visibly depends on both. -/
def hmacFix : String → String → String :=
  fun key data => key ++ "#" ++ data

/-- Network fixture answering every request with the decoded body `{}`. -/
def netOkFix : HttpRequest → Except String JsonValue :=
  fun _ => .ok (.jobj [])

/-- Network fixture failing every request the way axios surfaces a
non-success status. -/
def netErrFix : HttpRequest → Except String JsonValue :=
  fun _ => .error "Request failed with status code 500"

/-- Fixture for `JSON.parse` on the input `"\x7bbad json"`: the builtin throws a
`SyntaxError` with this message (modelled; the builtin is not repository
code). -/
def parseFailFix : String → Except String JsonValue :=
  fun _ => .error "Unexpected token b in JSON at position 1"

/-- Fixture for `JSON.parse` on the default input `"\x7b\x7d"`. -/
def parseOkFix : String → Except String JsonValue :=
  fun _ => .ok (.jobj [])

/-- Configuration with both credentials present. -/
def cfgSet : Config :=
  { publicKey := "pub", privateKey := "priv", apiBase := "https://tradernet.com/api" }

/-- Configuration with both credential environment variables absent. -/
def cfgNoKeys : Config :=
  mkConfig none none none

/-- The envelope produced by every handler when `callApi` throws the
missing-credential configuration error. -/
def configErrorEnvelope : Envelope :=
  { content := [{ type := "text", text := "Error: " ++ credsRequiredMsg }],
    isError := true }

/-- With a falsy credential, `callApi` throws the configuration error
before touching the network. -/
theorem callApi_creds_missing (cfg : Config) (hmac : String → String → String)
    (nowMs : Nat) (net : HttpRequest → Except String JsonValue)
    (command : String) (params : JsonValue)
    (h : cfg.publicKey = "" ∨ cfg.privateKey = "") :
    callApi cfg hmac nowMs net command params = (.error credsRequiredMsg, []) := by
  unfold callApi
  rw [if_pos h]
  rfl

/-- With both credentials non-empty, `callApi` issues exactly the signed
request and returns the transport's answer. -/
theorem callApi_creds_ok (cfg : Config) (hmac : String → String → String)
    (nowMs : Nat) (net : HttpRequest → Except String JsonValue)
    (command : String) (params : JsonValue)
    (hpub : cfg.publicKey ≠ "") (hpriv : cfg.privateKey ≠ "") :
    callApi cfg hmac nowMs net command params =
      (net { url := cfg.apiBase ++ "/" ++ command
             body := serialize params
             headers := [("Content-Type", "application/json"),
                         ("X-NtApi-PublicKey", cfg.publicKey),
                         ("X-NtApi-Timestamp", toString (nowMs / 1000)),
                         ("X-NtApi-Sig", hmac cfg.privateKey (serialize params ++ toString (nowMs / 1000)))] },
       [{ url := cfg.apiBase ++ "/" ++ command
          body := serialize params
          headers := [("Content-Type", "application/json"),
                      ("X-NtApi-PublicKey", cfg.publicKey),
                      ("X-NtApi-Timestamp", toString (nowMs / 1000)),
                      ("X-NtApi-Sig", hmac cfg.privateKey (serialize params ++ toString (nowMs / 1000)))] }]) := by
  unfold callApi
  rw [if_neg (not_or.mpr ⟨hpub, hpriv⟩)]
  rfl

/-- With a falsy credential, the uniform try/catch wrapper yields the
configuration-error envelope and an empty request trace. -/
theorem wrapCallApi_creds_missing (cfg : Config) (hmac : String → String → String)
    (nowMs : Nat) (net : HttpRequest → Except String JsonValue)
    (command : String) (params : JsonValue)
    (h : cfg.publicKey = "" ∨ cfg.privateKey = "") :
    wrapResult (callApi cfg hmac nowMs net command params) =
      ({ content := [{ type := "text", text := "Error: " ++ credsRequiredMsg }],
         isError := true }, []) := by
  rw [callApi_creds_missing cfg hmac nowMs net command params h]
  rfl

/-- Whatever `callApi` returns, the wrapper's envelope carries exactly one
content item, of type `"text"`. -/
theorem wrapResult_shape (r : Except String JsonValue × List HttpRequest) :
    ∃ t, (wrapResult r).1.content = [{ type := "text", text := t }] := by
  rcases r with ⟨e | d, reqs⟩
  · exact ⟨"Error: " ++ e, rfl⟩
  · exact ⟨formatResult d, rfl⟩

/-- The wrapper changes only the envelope: the request trace of the
underlying `callApi` result passes through untouched. -/
theorem wrapResult_trace (r : Except String JsonValue × List HttpRequest) :
    (wrapResult r).2 = r.2 := by
  rcases r with ⟨e | d, reqs⟩ <;> rfl

/-- String concatenation is associative (used to rewrite
`base ++ "/" ++ command` into `base ++ "/command"` at literal commands). -/
theorem strAppend_assoc (a b c : String) : (a ++ b) ++ c = a ++ (b ++ c) := by
  rcases a with ⟨as⟩; rcases b with ⟨bs⟩; rcases c with ⟨cs⟩
  show String.mk ((as ++ bs) ++ cs) = String.mk (as ++ (bs ++ cs))
  rw [List.append_assoc]

/-- C1: with both credentials non-empty, `callApi` issues exactly one HTTP
POST to `<base>/<command>` whose body is the JSON serialization of the
parameter mapping (not wrapped), with headers `Content-Type:
application/json`, `X-NtApi-PublicKey` the public credential,
`X-NtApi-Timestamp` the whole-second UNIX timestamp as a decimal string,
and `X-NtApi-Sig` the HMAC-SHA256 (the abstract `hmac` hex primitive)
keyed by the private credential of the serialized body concatenated with
the timestamp string; the call's value is the transport's answer to that
one request. -/
theorem claim_C1 (cfg : Config) (hmac : String → String → String) (nowMs : Nat)
    (net : HttpRequest → Except String JsonValue) (command : String) (params : JsonValue)
    (hpub : cfg.publicKey ≠ "") (hpriv : cfg.privateKey ≠ "") :
    callApi cfg hmac nowMs net command params =
      (net { url := cfg.apiBase ++ "/" ++ command
             body := serialize params
             headers := [("Content-Type", "application/json"),
                         ("X-NtApi-PublicKey", cfg.publicKey),
                         ("X-NtApi-Timestamp", toString (nowMs / 1000)),
                         ("X-NtApi-Sig", hmac cfg.privateKey (serialize params ++ toString (nowMs / 1000)))] },
       [{ url := cfg.apiBase ++ "/" ++ command
          body := serialize params
          headers := [("Content-Type", "application/json"),
                      ("X-NtApi-PublicKey", cfg.publicKey),
                      ("X-NtApi-Timestamp", toString (nowMs / 1000)),
                      ("X-NtApi-Sig", hmac cfg.privateKey (serialize params ++ toString (nowMs / 1000)))] }]) :=
  callApi_creds_ok cfg hmac nowMs net command params hpub hpriv

/-- C2 as stated is false: `raw_api_call` parses its `params` string
before `callApi` ever checks the credentials, so with both credentials
unset and `params = "\x7bbad json"` the returned error envelope carries the
`JSON.parse` failure message, which names neither TRADERNET_PUBLIC_KEY nor
TRADERNET_PRIVATE_KEY (no network request is issued, as the claim says). -/
theorem claim_C2_counterexample :
    (cfgNoKeys.publicKey = "" ∨ cfgNoKeys.privateKey = "") ∧
    (raw_api_call_handler cfgNoKeys hmacFix 0 netErrFix parseFailFix "getOPQ" "\x7bbad json" false).1.isError = true ∧
    (raw_api_call_handler cfgNoKeys hmacFix 0 netErrFix parseFailFix "getOPQ" "\x7bbad json" false).2 = [] ∧
    (raw_api_call_handler cfgNoKeys hmacFix 0 netErrFix parseFailFix "getOPQ" "\x7bbad json" false).1.content =
      [{ type := "text", text := "Error: Unexpected token b in JSON at position 1" }] ∧
    strContainsSub "Error: Unexpected token b in JSON at position 1" "TRADERNET_PUBLIC_KEY" = false ∧
    strContainsSub "Error: Unexpected token b in JSON at position 1" "TRADERNET_PRIVATE_KEY" = false :=
  ⟨Or.inl rfl, rfl, rfl, rfl, by decide, by decide⟩

/-- C2 amended: with either credential unset, every tool call issues zero
network requests; every tool except `raw_api_call` — and `raw_api_call`
too whenever its `params` string parses — returns the error envelope whose
message names both TRADERNET_PUBLIC_KEY and TRADERNET_PRIVATE_KEY (the
two `strContainsSub` conjuncts); a `raw_api_call` whose `params` fails to
parse returns the parse-failure envelope instead. -/
theorem claim_C2 (cfg : Config) (hmac : String → String → String) (nowMs : Nat)
    (net : HttpRequest → Except String JsonValue)
    (instrument : String) (action : OrderAction) (order_type : OrderType)
    (quantity : Int) (limit_price stop_price : Option Int) (expiration : Expiration)
    (order_id : Int) (stop_loss take_profit trailing_stop_percent : Option Int)
    (ticker timeframe date_from date_to : String) (count : Int)
    (query price trigger_type quote_type notification_type alert_period : String)
    (alert_id : Int) (parse : String → Except String JsonValue)
    (command params : String) (use_v2 : Bool) (parsed : JsonValue)
    (hcreds : cfg.publicKey = "" ∨ cfg.privateKey = "") :
    strContainsSub ("Error: " ++ credsRequiredMsg) "TRADERNET_PUBLIC_KEY" = true ∧
    strContainsSub ("Error: " ++ credsRequiredMsg) "TRADERNET_PRIVATE_KEY" = true ∧
    get_user_data_handler cfg hmac nowMs net = (configErrorEnvelope, []) ∧
    get_portfolio_handler cfg hmac nowMs net = (configErrorEnvelope, []) ∧
    place_order_handler cfg hmac nowMs net instrument action order_type quantity limit_price stop_price expiration = (configErrorEnvelope, []) ∧
    cancel_order_handler cfg hmac nowMs net order_id = (configErrorEnvelope, []) ∧
    set_stop_loss_take_profit_handler cfg hmac nowMs net instrument stop_loss take_profit trailing_stop_percent = (configErrorEnvelope, []) ∧
    get_security_info_handler cfg hmac nowMs net ticker = (configErrorEnvelope, []) ∧
    get_quotes_history_handler cfg hmac nowMs net ticker timeframe date_from date_to count = (configErrorEnvelope, []) ∧
    search_tickers_handler cfg hmac nowMs net query = (configErrorEnvelope, []) ∧
    add_price_alert_handler cfg hmac nowMs net ticker price trigger_type quote_type notification_type alert_period = (configErrorEnvelope, []) ∧
    delete_price_alert_handler cfg hmac nowMs net alert_id = (configErrorEnvelope, []) ∧
    get_security_sessions_handler cfg hmac nowMs net = (configErrorEnvelope, []) ∧
    (raw_api_call_handler cfg hmac nowMs net parse command params use_v2).2 = [] ∧
    (parse params = .ok parsed →
      raw_api_call_handler cfg hmac nowMs net parse command params use_v2 = (configErrorEnvelope, [])) := by
  refine ⟨by decide, by decide, ?_, ?_, ?_, ?_, ?_, ?_, ?_, ?_, ?_, ?_, ?_, ?_, ?_⟩
  · exact wrapCallApi_creds_missing cfg hmac nowMs net "getOPQ" (.jobj []) hcreds
  · exact wrapCallApi_creds_missing cfg hmac nowMs net "getPositionJson" (.jobj []) hcreds
  · exact wrapCallApi_creds_missing cfg hmac nowMs net "putTradeOrder"
      (placeOrderParams instrument action order_type quantity limit_price stop_price expiration) hcreds
  · exact wrapCallApi_creds_missing cfg hmac nowMs net "delTradeOrder"
      (.jobj [("order_id", .jnum order_id)]) hcreds
  · exact wrapCallApi_creds_missing cfg hmac nowMs net "putStopLoss"
      (.jobj [("instr_name", .jstr instrument),
              ("stop_loss", (stop_loss.map JsonValue.jnum).getD .jnull),
              ("take_profit", (take_profit.map JsonValue.jnum).getD .jnull),
              ("stoploss_trailing_percent", (trailing_stop_percent.map JsonValue.jnum).getD .jnull)]) hcreds
  · exact wrapCallApi_creds_missing cfg hmac nowMs net "getSecurityInfo"
      (.jobj [("ticker", .jstr ticker), ("sup", .jbool true)]) hcreds
  · exact wrapCallApi_creds_missing cfg hmac nowMs net "getHloc"
      (quotesHistoryParams ticker timeframe date_from date_to count) hcreds
  · exact wrapCallApi_creds_missing cfg hmac nowMs net "tickerFinder"
      (.jobj [("text", .jstr query)]) hcreds
  · exact wrapCallApi_creds_missing cfg hmac nowMs net "togglePriceAlert"
      (.jobj [("ticker", .jstr ticker),
              ("price", .jobj [("price", .jstr price)]),
              ("trigger_type", .jstr trigger_type),
              ("quote_type", .jstr quote_type),
              ("notification_type", .jstr notification_type),
              ("alert_period", .jstr alert_period),
              ("expire", .jnum 0)]) hcreds
  · exact wrapCallApi_creds_missing cfg hmac nowMs net "togglePriceAlert"
      (deletePriceAlertParams alert_id) hcreds
  · exact wrapCallApi_creds_missing cfg hmac nowMs net "getSecuritySessions" (.jobj []) hcreds
  · cases hp : parse params with
    | error e => simp [raw_api_call_handler, hp]
    | ok v =>
        cases use_v2 <;>
          simp [raw_api_call_handler, hp,
                wrapCallApi_creds_missing cfg hmac nowMs net command v hcreds]
  · intro hok
    simp only [raw_api_call_handler, hok]
    cases use_v2
    · exact wrapCallApi_creds_missing cfg hmac nowMs net command parsed hcreds
    · exact wrapCallApi_creds_missing cfg hmac nowMs net command parsed hcreds

/-- C2 witness: the amended theorem applied with both credential
environment variables absent and concrete parameters for every tool. -/
theorem claim_C2_witness :
    (cfgNoKeys.publicKey = "" ∨ cfgNoKeys.privateKey = "") ∧
    (strContainsSub ("Error: " ++ credsRequiredMsg) "TRADERNET_PUBLIC_KEY" = true ∧
     strContainsSub ("Error: " ++ credsRequiredMsg) "TRADERNET_PRIVATE_KEY" = true ∧
     get_user_data_handler cfgNoKeys hmacFix 0 netErrFix = (configErrorEnvelope, []) ∧
     get_portfolio_handler cfgNoKeys hmacFix 0 netErrFix = (configErrorEnvelope, []) ∧
     place_order_handler cfgNoKeys hmacFix 0 netErrFix "AAPL.US" .buy .market 1 none none .day = (configErrorEnvelope, []) ∧
     cancel_order_handler cfgNoKeys hmacFix 0 netErrFix 7 = (configErrorEnvelope, []) ∧
     set_stop_loss_take_profit_handler cfgNoKeys hmacFix 0 netErrFix "AAPL.US" none none none = (configErrorEnvelope, []) ∧
     get_security_info_handler cfgNoKeys hmacFix 0 netErrFix "AAPL.US" = (configErrorEnvelope, []) ∧
     get_quotes_history_handler cfgNoKeys hmacFix 0 netErrFix "AAPL.US" "60" "01.01.2025 00:00" "31.01.2025 23:59" 0 = (configErrorEnvelope, []) ∧
     search_tickers_handler cfgNoKeys hmacFix 0 netErrFix "AAPL" = (configErrorEnvelope, []) ∧
     add_price_alert_handler cfgNoKeys hmacFix 0 netErrFix "AAPL.US" "150" "crossing" "ltp" "push" "0" = (configErrorEnvelope, []) ∧
     delete_price_alert_handler cfgNoKeys hmacFix 0 netErrFix 42 = (configErrorEnvelope, []) ∧
     get_security_sessions_handler cfgNoKeys hmacFix 0 netErrFix = (configErrorEnvelope, []) ∧
     (raw_api_call_handler cfgNoKeys hmacFix 0 netErrFix parseOkFix "getOPQ" "\x7b\x7d" false).2 = [] ∧
     (parseOkFix "\x7b\x7d" = .ok (.jobj []) →
       raw_api_call_handler cfgNoKeys hmacFix 0 netErrFix parseOkFix "getOPQ" "\x7b\x7d" false = (configErrorEnvelope, []))) :=
  ⟨Or.inl rfl,
   claim_C2 cfgNoKeys hmacFix 0 netErrFix "AAPL.US" .buy .market 1 none none .day
     7 none none none "AAPL.US" "60" "01.01.2025 00:00" "31.01.2025 23:59" 0
     "AAPL" "150" "crossing" "ltp" "push" "0" 42 parseOkFix "getOPQ" "\x7b\x7d" false
     (.jobj []) (Or.inl rfl)⟩

/-- C3: every tool handler is (by construction of the embedding) a total
function from validated parameters to exactly one response envelope, and
that envelope always carries exactly one content item of shape
`\x7b type: "text", text: ... \x7d` — the success shape, or the same shape
with `isError` set — whatever the transport, parser, and parameters do. -/
theorem claim_C3 (cfg : Config) (hmac : String → String → String) (nowMs : Nat)
    (net : HttpRequest → Except String JsonValue)
    (instrument : String) (action : OrderAction) (order_type : OrderType)
    (quantity : Int) (limit_price stop_price : Option Int) (expiration : Expiration)
    (order_id : Int) (stop_loss take_profit trailing_stop_percent : Option Int)
    (ticker timeframe date_from date_to : String) (count : Int)
    (query price trigger_type quote_type notification_type alert_period : String)
    (alert_id : Int) (parse : String → Except String JsonValue)
    (command params : String) (use_v2 : Bool) :
    (∃ t, (get_user_data_handler cfg hmac nowMs net).1.content = [{ type := "text", text := t }]) ∧
    (∃ t, (get_portfolio_handler cfg hmac nowMs net).1.content = [{ type := "text", text := t }]) ∧
    (∃ t, (place_order_handler cfg hmac nowMs net instrument action order_type quantity limit_price stop_price expiration).1.content = [{ type := "text", text := t }]) ∧
    (∃ t, (cancel_order_handler cfg hmac nowMs net order_id).1.content = [{ type := "text", text := t }]) ∧
    (∃ t, (set_stop_loss_take_profit_handler cfg hmac nowMs net instrument stop_loss take_profit trailing_stop_percent).1.content = [{ type := "text", text := t }]) ∧
    (∃ t, (get_security_info_handler cfg hmac nowMs net ticker).1.content = [{ type := "text", text := t }]) ∧
    (∃ t, (get_quotes_history_handler cfg hmac nowMs net ticker timeframe date_from date_to count).1.content = [{ type := "text", text := t }]) ∧
    (∃ t, (search_tickers_handler cfg hmac nowMs net query).1.content = [{ type := "text", text := t }]) ∧
    (∃ t, (add_price_alert_handler cfg hmac nowMs net ticker price trigger_type quote_type notification_type alert_period).1.content = [{ type := "text", text := t }]) ∧
    (∃ t, (delete_price_alert_handler cfg hmac nowMs net alert_id).1.content = [{ type := "text", text := t }]) ∧
    (∃ t, (get_security_sessions_handler cfg hmac nowMs net).1.content = [{ type := "text", text := t }]) ∧
    (∃ t, (raw_api_call_handler cfg hmac nowMs net parse command params use_v2).1.content = [{ type := "text", text := t }]) := by
  refine ⟨?_, ?_, ?_, ?_, ?_, ?_, ?_, ?_, ?_, ?_, ?_, ?_⟩
  · exact wrapResult_shape (callApi cfg hmac nowMs net "getOPQ" (.jobj []))
  · exact wrapResult_shape (callApi cfg hmac nowMs net "getPositionJson" (.jobj []))
  · exact wrapResult_shape (callApi cfg hmac nowMs net "putTradeOrder"
      (placeOrderParams instrument action order_type quantity limit_price stop_price expiration))
  · exact wrapResult_shape (callApi cfg hmac nowMs net "delTradeOrder"
      (.jobj [("order_id", .jnum order_id)]))
  · exact wrapResult_shape (callApi cfg hmac nowMs net "putStopLoss"
      (.jobj [("instr_name", .jstr instrument),
              ("stop_loss", (stop_loss.map JsonValue.jnum).getD .jnull),
              ("take_profit", (take_profit.map JsonValue.jnum).getD .jnull),
              ("stoploss_trailing_percent", (trailing_stop_percent.map JsonValue.jnum).getD .jnull)]))
  · exact wrapResult_shape (callApi cfg hmac nowMs net "getSecurityInfo"
      (.jobj [("ticker", .jstr ticker), ("sup", .jbool true)]))
  · exact wrapResult_shape (callApi cfg hmac nowMs net "getHloc"
      (quotesHistoryParams ticker timeframe date_from date_to count))
  · exact wrapResult_shape (callApi cfg hmac nowMs net "tickerFinder"
      (.jobj [("text", .jstr query)]))
  · exact wrapResult_shape (callApi cfg hmac nowMs net "togglePriceAlert"
      (.jobj [("ticker", .jstr ticker),
              ("price", .jobj [("price", .jstr price)]),
              ("trigger_type", .jstr trigger_type),
              ("quote_type", .jstr quote_type),
              ("notification_type", .jstr notification_type),
              ("alert_period", .jstr alert_period),
              ("expire", .jnum 0)]))
  · exact wrapResult_shape (callApi cfg hmac nowMs net "togglePriceAlert"
      (deletePriceAlertParams alert_id))
  · exact wrapResult_shape (callApi cfg hmac nowMs net "getSecuritySessions" (.jobj []))
  · cases hp : parse params with
    | error e => exact ⟨"Error: " ++ e, by simp [raw_api_call_handler, hp]⟩
    | ok v =>
        simp only [raw_api_call_handler, hp]
        exact wrapResult_shape (if use_v2 then callApi cfg hmac nowMs net command v
                                else callApi cfg hmac nowMs net command v)

/-- C4: the enum-to-code tables are exactly action `buy=1, buy_margin=2,
sell=3, sell_short=4`; order_type `market=1, limit=2, stop=3,
stop_limit=4`; expiration `day=1, day_ext=2, gtc=3` — and applied to
`place_order`'s parameters, `action="buy"`/`order_type="market"` yields
`action_id=1`/`order_type_id=1` and `action="sell_short"`/
`order_type="stop_limit"` yields `action_id=4`/`order_type_id=4` in the
outgoing mapping. -/
theorem claim_C4 (instrument : String) (quantity : Int)
    (limit_price stop_price : Option Int) (expiration : Expiration) :
    (actionMap .buy = 1 ∧ actionMap .buy_margin = 2 ∧ actionMap .sell = 3 ∧ actionMap .sell_short = 4) ∧
    (typeMap .market = 1 ∧ typeMap .limit = 2 ∧ typeMap .stop = 3 ∧ typeMap .stop_limit = 4) ∧
    (expMap .day = 1 ∧ expMap .day_ext = 2 ∧ expMap .gtc = 3) ∧
    ((placeOrderParams instrument .buy .market quantity limit_price stop_price expiration).lookup "action_id" = some (.jnum 1) ∧
     (placeOrderParams instrument .buy .market quantity limit_price stop_price expiration).lookup "order_type_id" = some (.jnum 1)) ∧
    ((placeOrderParams instrument .sell_short .stop_limit quantity limit_price stop_price expiration).lookup "action_id" = some (.jnum 4) ∧
     (placeOrderParams instrument .sell_short .stop_limit quantity limit_price stop_price expiration).lookup "order_type_id" = some (.jnum 4)) :=
  ⟨⟨rfl, rfl, rfl, rfl⟩, ⟨rfl, rfl, rfl, rfl⟩, ⟨rfl, rfl, rfl⟩, ⟨rfl, rfl⟩, ⟨rfl, rfl⟩⟩

/-- C5: with credentials set, `place_order(\x7binstrument:"AAPL.US",
action:"buy", order_type:"limit", quantity:10, limit_price:150\x7d)` (stop
price absent, expiration defaulted to `day`) issues exactly one POST to
`<base>/putTradeOrder` whose body is the exact JSON string of the claim —
absent prices defaulting to 0, expiration to 1 — carries the signed
headers, and on transport success wraps the pretty-printed response body
in the success envelope. -/
theorem claim_C5 (cfg : Config) (hmac : String → String → String) (nowMs : Nat)
    (resp : JsonValue) (hpub : cfg.publicKey ≠ "") (hpriv : cfg.privateKey ≠ "") :
    place_order_handler cfg hmac nowMs (fun _ => .ok resp) "AAPL.US" .buy .limit 10 (some 150) none .day =
      ({ content := [{ type := "text", text := formatResult resp }], isError := false },
       [{ url := cfg.apiBase ++ "/putTradeOrder"
          body := "\x7b\"instr_name\":\"AAPL.US\",\"action_id\":1,\"order_type_id\":2,\"qty\":10,\"limit_price\":150,\"stop_price\":0,\"expiration_id\":1\x7d"
          headers := [("Content-Type", "application/json"),
                      ("X-NtApi-PublicKey", cfg.publicKey),
                      ("X-NtApi-Timestamp", toString (nowMs / 1000)),
                      ("X-NtApi-Sig", hmac cfg.privateKey
                        ("\x7b\"instr_name\":\"AAPL.US\",\"action_id\":1,\"order_type_id\":2,\"qty\":10,\"limit_price\":150,\"stop_price\":0,\"expiration_id\":1\x7d" ++ toString (nowMs / 1000)))] }]) := by
  have hbody : serialize (placeOrderParams "AAPL.US" .buy .limit 10 (some 150) none .day) =
      "\x7b\"instr_name\":\"AAPL.US\",\"action_id\":1,\"order_type_id\":2,\"qty\":10,\"limit_price\":150,\"stop_price\":0,\"expiration_id\":1\x7d" := by
    decide
  unfold place_order_handler
  rw [callApi_creds_ok cfg hmac nowMs (fun _ => .ok resp) "putTradeOrder"
        (placeOrderParams "AAPL.US" .buy .limit 10 (some 150) none .day) hpub hpriv,
      hbody, strAppend_assoc]
  rfl

/-- C5 witness: the theorem at a concrete configuration, HMAC fixture,
time 0, and response body `\x7b\x7d`. -/
theorem claim_C5_witness :
    (cfgSet.publicKey ≠ "" ∧ cfgSet.privateKey ≠ "") ∧
    place_order_handler cfgSet hmacFix 0 (fun _ => .ok (.jobj [])) "AAPL.US" .buy .limit 10 (some 150) none .day =
      ({ content := [{ type := "text", text := formatResult (.jobj []) }], isError := false },
       [{ url := cfgSet.apiBase ++ "/putTradeOrder"
          body := "\x7b\"instr_name\":\"AAPL.US\",\"action_id\":1,\"order_type_id\":2,\"qty\":10,\"limit_price\":150,\"stop_price\":0,\"expiration_id\":1\x7d"
          headers := [("Content-Type", "application/json"),
                      ("X-NtApi-PublicKey", cfgSet.publicKey),
                      ("X-NtApi-Timestamp", toString (0 / 1000)),
                      ("X-NtApi-Sig", hmacFix cfgSet.privateKey
                        ("\x7b\"instr_name\":\"AAPL.US\",\"action_id\":1,\"order_type_id\":2,\"qty\":10,\"limit_price\":150,\"stop_price\":0,\"expiration_id\":1\x7d" ++ toString (0 / 1000)))] }]) :=
  ⟨⟨by decide, by decide⟩,
   claim_C5 cfgSet hmacFix 0 (.jobj []) (by decide) (by decide)⟩

/-- C6: `delete_price_alert` sends to the `togglePriceAlert` command
exactly the mapping `\x7bid: alert_id, del: true, quote_type: "ltp",
notification_type: "email"\x7d` — the two string fields are fixed constants
(the handler receives nothing but `alert_id`, so they cannot depend on the
alert's original configuration) — and with credentials set the one
outbound request goes to `<base>/togglePriceAlert` carrying that mapping's
serialization as its body. -/
theorem claim_C6 (alert_id : Int) (cfg : Config) (hmac : String → String → String)
    (nowMs : Nat) (net : HttpRequest → Except String JsonValue)
    (hpub : cfg.publicKey ≠ "") (hpriv : cfg.privateKey ≠ "") :
    deletePriceAlertParams alert_id =
      .jobj [("id", .jnum alert_id), ("del", .jbool true),
             ("quote_type", .jstr "ltp"), ("notification_type", .jstr "email")] ∧
    delete_price_alert_handler cfg hmac nowMs net alert_id =
      wrapResult (callApi cfg hmac nowMs net "togglePriceAlert"
        (.jobj [("id", .jnum alert_id), ("del", .jbool true),
                ("quote_type", .jstr "ltp"), ("notification_type", .jstr "email")])) ∧
    (delete_price_alert_handler cfg hmac nowMs net alert_id).2 =
      [{ url := cfg.apiBase ++ "/togglePriceAlert"
         body := serialize (.jobj [("id", .jnum alert_id), ("del", .jbool true),
                                   ("quote_type", .jstr "ltp"), ("notification_type", .jstr "email")])
         headers := [("Content-Type", "application/json"),
                     ("X-NtApi-PublicKey", cfg.publicKey),
                     ("X-NtApi-Timestamp", toString (nowMs / 1000)),
                     ("X-NtApi-Sig", hmac cfg.privateKey
                       (serialize (deletePriceAlertParams alert_id) ++ toString (nowMs / 1000)))] }] := by
  refine ⟨rfl, rfl, ?_⟩
  unfold delete_price_alert_handler
  rw [callApi_creds_ok cfg hmac nowMs net "togglePriceAlert" (deletePriceAlertParams alert_id) hpub hpriv,
      wrapResult_trace, strAppend_assoc]
  rfl

/-- C6 witness: the theorem at `alert_id = 42` and concrete fixtures; the
serialized body is the exact JSON string of the spec's example. -/
theorem claim_C6_witness :
    (cfgSet.publicKey ≠ "" ∧ cfgSet.privateKey ≠ "") ∧
    (delete_price_alert_handler cfgSet hmacFix 0 netOkFix 42).2 =
      [{ url := cfgSet.apiBase ++ "/togglePriceAlert"
         body := serialize (.jobj [("id", .jnum 42), ("del", .jbool true),
                                   ("quote_type", .jstr "ltp"), ("notification_type", .jstr "email")])
         headers := [("Content-Type", "application/json"),
                     ("X-NtApi-PublicKey", cfgSet.publicKey),
                     ("X-NtApi-Timestamp", toString (0 / 1000)),
                     ("X-NtApi-Sig", hmacFix cfgSet.privateKey
                       (serialize (deletePriceAlertParams 42) ++ toString (0 / 1000)))] }] ∧
    serialize (deletePriceAlertParams 42) =
      "\x7b\"id\":42,\"del\":true,\"quote_type\":\"ltp\",\"notification_type\":\"email\"\x7d" :=
  ⟨⟨by decide, by decide⟩,
   (claim_C6 42 cfgSet hmacFix 0 netOkFix (by decide) (by decide)).2.2,
   by decide⟩

/-- C7: `get_quotes_history` converts the `timeframe` enum string to its
integer value in the outgoing mapping (each of the five admissible strings
maps to its numeral) and always sends the fixed `intervalMode:
"ClosedRay"`; in particular `timeframe="60"` sends the integer 60. -/
theorem claim_C7 (ticker date_from date_to : String) (count : Int) (tf : String) :
    (quotesHistoryParams ticker tf date_from date_to count).lookup "timeframe" =
      some (.jnum (jsParseInt tf)) ∧
    (quotesHistoryParams ticker tf date_from date_to count).lookup "intervalMode" =
      some (.jstr "ClosedRay") ∧
    (tf = "1" → jsParseInt tf = 1) ∧
    (tf = "5" → jsParseInt tf = 5) ∧
    (tf = "15" → jsParseInt tf = 15) ∧
    (tf = "60" → jsParseInt tf = 60) ∧
    (tf = "1440" → jsParseInt tf = 1440) ∧
    (tf = "60" →
      (quotesHistoryParams ticker tf date_from date_to count).lookup "timeframe" =
        some (.jnum 60)) := by
  refine ⟨rfl, rfl, ?_, ?_, ?_, ?_, ?_, ?_⟩ <;> intro h <;> subst h <;> rfl

/-- C7 witness: the theorem at `timeframe = "60"`, with the two
implications discharged at that value. -/
theorem claim_C7_witness :
    (quotesHistoryParams "AAPL.US" "60" "01.01.2025 00:00" "31.01.2025 23:59" 0).lookup "timeframe" =
      some (.jnum (jsParseInt "60")) ∧
    (quotesHistoryParams "AAPL.US" "60" "01.01.2025 00:00" "31.01.2025 23:59" 0).lookup "intervalMode" =
      some (.jstr "ClosedRay") ∧
    jsParseInt "60" = 60 ∧
    (quotesHistoryParams "AAPL.US" "60" "01.01.2025 00:00" "31.01.2025 23:59" 0).lookup "timeframe" =
      some (.jnum 60) :=
  ⟨(claim_C7 "AAPL.US" "01.01.2025 00:00" "31.01.2025 23:59" 0 "60").1,
   (claim_C7 "AAPL.US" "01.01.2025 00:00" "31.01.2025 23:59" 0 "60").2.1,
   (claim_C7 "AAPL.US" "01.01.2025 00:00" "31.01.2025 23:59" 0 "60").2.2.2.2.2.1 rfl,
   (claim_C7 "AAPL.US" "01.01.2025 00:00" "31.01.2025 23:59" 0 "60").2.2.2.2.2.2.2 rfl⟩

/-- C8: whenever the `params` string fails to parse (`JSON.parse` throws),
`raw_api_call` returns the error envelope carrying the parse failure's
message and issues zero network requests — the credential check and the
transport are never reached. -/
theorem claim_C8 (cfg : Config) (hmac : String → String → String) (nowMs : Nat)
    (net : HttpRequest → Except String JsonValue)
    (parse : String → Except String JsonValue)
    (command params : String) (use_v2 : Bool) (e : String)
    (hfail : parse params = .error e) :
    raw_api_call_handler cfg hmac nowMs net parse command params use_v2 =
      ({ content := [{ type := "text", text := "Error: " ++ e }], isError := true }, []) := by
  simp only [raw_api_call_handler, hfail]

/-- C8 witness: the theorem at `params = "\x7bbad json"` with the modelled
`JSON.parse` failure, credentials present — the parse error still wins and
the trace is empty. -/
theorem claim_C8_witness :
    parseFailFix "\x7bbad json" = .error "Unexpected token b in JSON at position 1" ∧
    raw_api_call_handler cfgSet hmacFix 0 netOkFix parseFailFix "getOPQ" "\x7bbad json" false =
      ({ content := [{ type := "text", text := "Error: Unexpected token b in JSON at position 1" }],
         isError := true }, []) :=
  ⟨rfl,
   claim_C8 cfgSet hmacFix 0 netOkFix parseFailFix "getOPQ" "\x7bbad json" false
     "Unexpected token b in JSON at position 1" rfl⟩

/-- C9: `raw_api_call` with `use_v2=true` behaves identically to
`use_v2=false` for every command, params string, credential state, parser
and transport: both arms of the source's conditional are the same
`callApi(command, parsed)`, so the envelope and the request trace
coincide. -/
theorem claim_C9 (cfg : Config) (hmac : String → String → String) (nowMs : Nat)
    (net : HttpRequest → Except String JsonValue)
    (parse : String → Except String JsonValue) (command params : String) :
    raw_api_call_handler cfg hmac nowMs net parse command params true =
      raw_api_call_handler cfg hmac nowMs net parse command params false := by
  unfold raw_api_call_handler
  cases parse params <;> rfl

/-- C10 (implicit): an environment variable set to the empty string is
indistinguishable from an absent one — the startup defaults map absence to
`""` (so `some ""` and `none` build identical configurations), and the
per-call check rejects any falsy credential, so with an empty credential
every tool call produces an error envelope and issues no network request,
exactly as when the variable is unset. -/
theorem claim_C10 (pub priv url : Option String) (cfg : Config)
    (hmac : String → String → String) (nowMs : Nat)
    (net : HttpRequest → Except String JsonValue)
    (instrument : String) (action : OrderAction) (order_type : OrderType)
    (quantity : Int) (limit_price stop_price : Option Int) (expiration : Expiration)
    (order_id : Int) (stop_loss take_profit trailing_stop_percent : Option Int)
    (ticker timeframe date_from date_to : String) (count : Int)
    (query price trigger_type quote_type notification_type alert_period : String)
    (alert_id : Int) (parse : String → Except String JsonValue)
    (command params : String) (use_v2 : Bool)
    (hcreds : cfg.publicKey = "" ∨ cfg.privateKey = "") :
    mkConfig (some "") priv url = mkConfig none priv url ∧
    mkConfig pub (some "") url = mkConfig pub none url ∧
    ((get_user_data_handler cfg hmac nowMs net).1.isError = true ∧
     (get_user_data_handler cfg hmac nowMs net).2 = []) ∧
    ((get_portfolio_handler cfg hmac nowMs net).1.isError = true ∧
     (get_portfolio_handler cfg hmac nowMs net).2 = []) ∧
    ((place_order_handler cfg hmac nowMs net instrument action order_type quantity limit_price stop_price expiration).1.isError = true ∧
     (place_order_handler cfg hmac nowMs net instrument action order_type quantity limit_price stop_price expiration).2 = []) ∧
    ((cancel_order_handler cfg hmac nowMs net order_id).1.isError = true ∧
     (cancel_order_handler cfg hmac nowMs net order_id).2 = []) ∧
    ((set_stop_loss_take_profit_handler cfg hmac nowMs net instrument stop_loss take_profit trailing_stop_percent).1.isError = true ∧
     (set_stop_loss_take_profit_handler cfg hmac nowMs net instrument stop_loss take_profit trailing_stop_percent).2 = []) ∧
    ((get_security_info_handler cfg hmac nowMs net ticker).1.isError = true ∧
     (get_security_info_handler cfg hmac nowMs net ticker).2 = []) ∧
    ((get_quotes_history_handler cfg hmac nowMs net ticker timeframe date_from date_to count).1.isError = true ∧
     (get_quotes_history_handler cfg hmac nowMs net ticker timeframe date_from date_to count).2 = []) ∧
    ((search_tickers_handler cfg hmac nowMs net query).1.isError = true ∧
     (search_tickers_handler cfg hmac nowMs net query).2 = []) ∧
    ((add_price_alert_handler cfg hmac nowMs net ticker price trigger_type quote_type notification_type alert_period).1.isError = true ∧
     (add_price_alert_handler cfg hmac nowMs net ticker price trigger_type quote_type notification_type alert_period).2 = []) ∧
    ((delete_price_alert_handler cfg hmac nowMs net alert_id).1.isError = true ∧
     (delete_price_alert_handler cfg hmac nowMs net alert_id).2 = []) ∧
    ((get_security_sessions_handler cfg hmac nowMs net).1.isError = true ∧
     (get_security_sessions_handler cfg hmac nowMs net).2 = []) ∧
    ((raw_api_call_handler cfg hmac nowMs net parse command params use_v2).1.isError = true ∧
     (raw_api_call_handler cfg hmac nowMs net parse command params use_v2).2 = []) := by
  refine ⟨rfl, rfl, ?_, ?_, ?_, ?_, ?_, ?_, ?_, ?_, ?_, ?_, ?_, ?_⟩
  · rw [show get_user_data_handler cfg hmac nowMs net = (configErrorEnvelope, []) from
      wrapCallApi_creds_missing cfg hmac nowMs net "getOPQ" (.jobj []) hcreds]
    exact ⟨rfl, rfl⟩
  · rw [show get_portfolio_handler cfg hmac nowMs net = (configErrorEnvelope, []) from
      wrapCallApi_creds_missing cfg hmac nowMs net "getPositionJson" (.jobj []) hcreds]
    exact ⟨rfl, rfl⟩
  · rw [show place_order_handler cfg hmac nowMs net instrument action order_type quantity limit_price stop_price expiration = (configErrorEnvelope, []) from
      wrapCallApi_creds_missing cfg hmac nowMs net "putTradeOrder"
        (placeOrderParams instrument action order_type quantity limit_price stop_price expiration) hcreds]
    exact ⟨rfl, rfl⟩
  · rw [show cancel_order_handler cfg hmac nowMs net order_id = (configErrorEnvelope, []) from
      wrapCallApi_creds_missing cfg hmac nowMs net "delTradeOrder"
        (.jobj [("order_id", .jnum order_id)]) hcreds]
    exact ⟨rfl, rfl⟩
  · rw [show set_stop_loss_take_profit_handler cfg hmac nowMs net instrument stop_loss take_profit trailing_stop_percent = (configErrorEnvelope, []) from
      wrapCallApi_creds_missing cfg hmac nowMs net "putStopLoss"
        (.jobj [("instr_name", .jstr instrument),
                ("stop_loss", (stop_loss.map JsonValue.jnum).getD .jnull),
                ("take_profit", (take_profit.map JsonValue.jnum).getD .jnull),
                ("stoploss_trailing_percent", (trailing_stop_percent.map JsonValue.jnum).getD .jnull)]) hcreds]
    exact ⟨rfl, rfl⟩
  · rw [show get_security_info_handler cfg hmac nowMs net ticker = (configErrorEnvelope, []) from
      wrapCallApi_creds_missing cfg hmac nowMs net "getSecurityInfo"
        (.jobj [("ticker", .jstr ticker), ("sup", .jbool true)]) hcreds]
    exact ⟨rfl, rfl⟩
  · rw [show get_quotes_history_handler cfg hmac nowMs net ticker timeframe date_from date_to count = (configErrorEnvelope, []) from
      wrapCallApi_creds_missing cfg hmac nowMs net "getHloc"
        (quotesHistoryParams ticker timeframe date_from date_to count) hcreds]
    exact ⟨rfl, rfl⟩
  · rw [show search_tickers_handler cfg hmac nowMs net query = (configErrorEnvelope, []) from
      wrapCallApi_creds_missing cfg hmac nowMs net "tickerFinder"
        (.jobj [("text", .jstr query)]) hcreds]
    exact ⟨rfl, rfl⟩
  · rw [show add_price_alert_handler cfg hmac nowMs net ticker price trigger_type quote_type notification_type alert_period = (configErrorEnvelope, []) from
      wrapCallApi_creds_missing cfg hmac nowMs net "togglePriceAlert"
        (.jobj [("ticker", .jstr ticker),
                ("price", .jobj [("price", .jstr price)]),
                ("trigger_type", .jstr trigger_type),
                ("quote_type", .jstr quote_type),
                ("notification_type", .jstr notification_type),
                ("alert_period", .jstr alert_period),
                ("expire", .jnum 0)]) hcreds]
    exact ⟨rfl, rfl⟩
  · rw [show delete_price_alert_handler cfg hmac nowMs net alert_id = (configErrorEnvelope, []) from
      wrapCallApi_creds_missing cfg hmac nowMs net "togglePriceAlert"
        (deletePriceAlertParams alert_id) hcreds]
    exact ⟨rfl, rfl⟩
  · rw [show get_security_sessions_handler cfg hmac nowMs net = (configErrorEnvelope, []) from
      wrapCallApi_creds_missing cfg hmac nowMs net "getSecuritySessions" (.jobj []) hcreds]
    exact ⟨rfl, rfl⟩
  · cases hp : parse params with
    | error e =>
        constructor
        · simp [raw_api_call_handler, hp]
        · simp [raw_api_call_handler, hp]
    | ok v =>
        have h : raw_api_call_handler cfg hmac nowMs net parse command params use_v2 =
            (configErrorEnvelope, []) := by
          simp only [raw_api_call_handler, hp]
          cases use_v2
          · exact wrapCallApi_creds_missing cfg hmac nowMs net command v hcreds
          · exact wrapCallApi_creds_missing cfg hmac nowMs net command v hcreds
        rw [h]
        exact ⟨rfl, rfl⟩

/-- C10 witness: the theorem with both credential variables absent
(`cfgNoKeys`) and concrete parameters for every tool. -/
theorem claim_C10_witness :
    (cfgNoKeys.publicKey = "" ∨ cfgNoKeys.privateKey = "") ∧
    (mkConfig (some "") (some "priv") none = mkConfig none (some "priv") none ∧
     mkConfig (some "pub") (some "") none = mkConfig (some "pub") none none ∧
     ((get_user_data_handler cfgNoKeys hmacFix 0 netOkFix).1.isError = true ∧
      (get_user_data_handler cfgNoKeys hmacFix 0 netOkFix).2 = []) ∧
     ((get_portfolio_handler cfgNoKeys hmacFix 0 netOkFix).1.isError = true ∧
      (get_portfolio_handler cfgNoKeys hmacFix 0 netOkFix).2 = []) ∧
     ((place_order_handler cfgNoKeys hmacFix 0 netOkFix "AAPL.US" .buy .market 1 none none .day).1.isError = true ∧
      (place_order_handler cfgNoKeys hmacFix 0 netOkFix "AAPL.US" .buy .market 1 none none .day).2 = []) ∧
     ((cancel_order_handler cfgNoKeys hmacFix 0 netOkFix 7).1.isError = true ∧
      (cancel_order_handler cfgNoKeys hmacFix 0 netOkFix 7).2 = []) ∧
     ((set_stop_loss_take_profit_handler cfgNoKeys hmacFix 0 netOkFix "AAPL.US" none none none).1.isError = true ∧
      (set_stop_loss_take_profit_handler cfgNoKeys hmacFix 0 netOkFix "AAPL.US" none none none).2 = []) ∧
     ((get_security_info_handler cfgNoKeys hmacFix 0 netOkFix "AAPL.US").1.isError = true ∧
      (get_security_info_handler cfgNoKeys hmacFix 0 netOkFix "AAPL.US").2 = []) ∧
     ((get_quotes_history_handler cfgNoKeys hmacFix 0 netOkFix "AAPL.US" "60" "01.01.2025 00:00" "31.01.2025 23:59" 0).1.isError = true ∧
      (get_quotes_history_handler cfgNoKeys hmacFix 0 netOkFix "AAPL.US" "60" "01.01.2025 00:00" "31.01.2025 23:59" 0).2 = []) ∧
     ((search_tickers_handler cfgNoKeys hmacFix 0 netOkFix "AAPL").1.isError = true ∧
      (search_tickers_handler cfgNoKeys hmacFix 0 netOkFix "AAPL").2 = []) ∧
     ((add_price_alert_handler cfgNoKeys hmacFix 0 netOkFix "AAPL.US" "150" "crossing" "ltp" "push" "0").1.isError = true ∧
      (add_price_alert_handler cfgNoKeys hmacFix 0 netOkFix "AAPL.US" "150" "crossing" "ltp" "push" "0").2 = []) ∧
     ((delete_price_alert_handler cfgNoKeys hmacFix 0 netOkFix 42).1.isError = true ∧
      (delete_price_alert_handler cfgNoKeys hmacFix 0 netOkFix 42).2 = []) ∧
     ((get_security_sessions_handler cfgNoKeys hmacFix 0 netOkFix).1.isError = true ∧
      (get_security_sessions_handler cfgNoKeys hmacFix 0 netOkFix).2 = []) ∧
     ((raw_api_call_handler cfgNoKeys hmacFix 0 netOkFix parseFailFix "getOPQ" "\x7bbad json" false).1.isError = true ∧
      (raw_api_call_handler cfgNoKeys hmacFix 0 netOkFix parseFailFix "getOPQ" "\x7bbad json" false).2 = [])) :=
  ⟨Or.inl rfl,
   claim_C10 (some "pub") (some "priv") none cfgNoKeys hmacFix 0 netOkFix
     "AAPL.US" .buy .market 1 none none .day 7 none none none
     "AAPL.US" "60" "01.01.2025 00:00" "31.01.2025 23:59" 0
     "AAPL" "150" "crossing" "ltp" "push" "0" 42 parseFailFix "getOPQ" "\x7bbad json" false
     (Or.inl rfl)⟩

/-- C1 witness: the theorem applied at concrete inputs — the timestamp
header is `"1700000000"` (floor of 1700000000123 ms / 1000), the body is
`"\x7b\x7d"`, and the signature fixture receives the private key and
`"\x7b\x7d1700000000"`. -/
theorem claim_C1_witness :
    (cfgSet.publicKey ≠ "" ∧ cfgSet.privateKey ≠ "") ∧
    callApi cfgSet hmacFix 1700000000123 netOkFix "getOPQ" (.jobj []) =
      (.ok (.jobj []),
       [{ url := "https://tradernet.com/api/getOPQ"
          body := "\x7b\x7d"
          headers := [("Content-Type", "application/json"),
                      ("X-NtApi-PublicKey", "pub"),
                      ("X-NtApi-Timestamp", "1700000000"),
                      ("X-NtApi-Sig", "priv#\x7b\x7d1700000000")] }]) :=
  ⟨⟨by decide, by decide⟩, by
    rw [claim_C1 cfgSet hmacFix 1700000000123 netOkFix "getOPQ" (.jobj [])
          (by decide) (by decide)]
    rfl⟩
